import Mathlib

/-!
Verification of the MoQSession core (moxygen/MoQSession.cpp) against its
natural-language specification.  The C++ is shallowly embedded: machine
integers are `Nat` with explicit `% 2^w` where C++ width conversions matter,
stateful methods become explicit state-passing functions, and fallible
methods return the state paired with an `Option`/`Except` error.  The
transport collaborator (WebTransport) is modelled as accepting every write,
matching the spec, which treats the transport as an external collaborator;
transport write failures are outside every claim considered here.
-/

namespace Moxygen

/-- Model of `GroupOrder` from the MoQ framer: delivery preference for groups. -/
inductive GroupOrder where
  | OldestFirst
  | NewestFirst
deriving DecidableEq, Repr

/-! ## Priority encoder (MoQSession.cpp lines 18-57) -/

/-- Model of `constexpr uint32_t IdMask = 0x1FFFFF;` — low 21 bits. -/
def IdMask : Nat := 0x1FFFFF

/-- Model of `groupPriorityBits(GroupOrder, uint64_t group)`:
`uint32_t truncGroup = static_cast<uint32_t>(group) & IdMask;` then
`truncGroup` for OldestFirst, `IdMask - truncGroup` for NewestFirst. -/
def groupPriorityBits (groupOrder : GroupOrder) (group : Nat) : Nat :=
  let truncGroup := (group % 2 ^ 32) &&& IdMask
  match groupOrder with
  | .OldestFirst => truncGroup
  | .NewestFirst => IdMask - truncGroup

/-- Model of `subgroupPriorityBits(uint32_t subgroupID)`: the argument is narrowed to
`uint32_t` at the call site, then masked with `IdMask`. -/
def subgroupPriorityBits (subgroupID : Nat) : Nat :=
  (subgroupID % 2 ^ 32) &&& IdMask

/-- Model of `getStreamPriority(groupID, subgroupID, subPri, pubPri, pubGroupOrder)`.
`subPri`/`pubPri` are `uint8_t` parameters, hence the `% 2^8`.
`groupBits` is a `uint32_t`, so the C++ expression `groupBits << 21` is
evaluated in 32-bit arithmetic: the result wraps modulo `2^32` before being
OR-ed into the 64-bit value.  All remaining operands stay below `2^58`, so
no further 64-bit wrap occurs. -/
def getStreamPriority (groupID subgroupID subPri pubPri : Nat)
    (pubGroupOrder : GroupOrder) : Nat :=
  let groupBits := groupPriorityBits pubGroupOrder groupID
  let subgroupBits := subgroupPriorityBits subgroupID
  ((subPri % 2 ^ 8) <<< 50) ||| ((pubPri % 2 ^ 8) <<< 42) |||
    ((groupBits <<< 21) % 2 ^ 32) ||| subgroupBits

/-- The value the layout sentence of the spec describes (spec-side definition, for
comparison with `getStreamPriority`): 6 reserved bits, 8 subPri, 8 pubPri,
21 group-order-adjusted group bits, 21 subgroup bits, assembled with full
64-bit shifts. -/
def claimedStreamPriority (groupID subgroupID subPri pubPri : Nat)
    (pubGroupOrder : GroupOrder) : Nat :=
  ((subPri % 2 ^ 8) <<< 50) ||| ((pubPri % 2 ^ 8) <<< 42) |||
    (groupPriorityBits pubGroupOrder groupID <<< 21) |||
    subgroupPriorityBits subgroupID

/-! ## StreamPublisherImpl (MoQSession.cpp lines 65-733)

One writer per unidirectional stream, used both as a `SubgroupConsumer`
(subgroup streams) and a `FetchConsumer` (fetch streams).  Payloads are
modelled by their lengths (`computeChainDataLength`); the buffered bytes of
`writeBuf_` are not tracked, but the sequence of object records written to
the stream is, in `written`. -/

/-- Model of `std::numeric_limits<uint64_t>::max()`, the no-object-written-yet
sentinel stored in `header_.id`. -/
def uint64Max : Nat := 2 ^ 64 - 1

/-- Model of `MoQPublishError::Code` (the subset reachable in the writer). -/
inductive MoQPublishErrorCode where
  | API_ERROR
  | BLOCKED
  | CANCELLED
  | WRITE_ERROR
deriving DecidableEq, Repr

/-- Model of `ObjectPublishStatus`: result of a partial-object payload call. -/
inductive ObjectPublishStatus where
  | DONE
  | IN_PROGRESS
deriving DecidableEq, Repr

/-- Model of `ResetStreamErrorCode` (the subset used by the writer). -/
inductive ResetStreamErrorCode where
  | INTERNAL_ERROR
  | CANCELLED
  | SESSION_CLOSED
deriving DecidableEq, Repr

/-- State of one `StreamPublisherImpl`.  `writeHandleOpen` is
`writeHandle_ != nullptr`; `resetCode` records the code passed to
`resetStream` when `reset` ran against a live handle; `group`, `subgroup`
and `headerId` are the corresponding `header_` fields; `written` is the
sequence of `(group, subgroup, id)` records of objects written so far. -/
structure StreamPublisherState where
  writeHandleOpen : Bool
  resetCode : Option ResetStreamErrorCode
  group : Nat
  subgroup : Nat
  headerId : Nat
  headerLength : Option Nat
  currentLengthRemaining : Option Nat
  written : List (Nat × Nat × Nat)
deriving DecidableEq, Repr

namespace StreamPublisherImpl

/-- Model of `reset(error)`: null the handle and `resetStream(error)` when a handle is
live; on a dead handle only logs.  (`onStreamComplete` notifies the owning
publisher; that callback is modelled at the session level.) -/
def reset (s : StreamPublisherState) (error : ResetStreamErrorCode) :
    StreamPublisherState :=
  if s.writeHandleOpen then
    { s with writeHandleOpen := false, resetCode := some error }
  else
    s

/-- Model of `validatePublish(objectID)` (lines 522-544): reject when a partial object
is outstanding, when the object ID does not advance past `header_.id`
(unless `header_.id` is the sentinel), or when the writer is finalized.  In
the first two cases the stream is also reset with INTERNAL_ERROR. -/
def validatePublish (s : StreamPublisherState) (objectID : Nat) :
    StreamPublisherState × Option MoQPublishErrorCode :=
  if s.currentLengthRemaining.isSome then
    (reset s .INTERNAL_ERROR, some .API_ERROR)
  else if s.headerId ≠ uint64Max ∧ objectID ≤ s.headerId then
    (reset s .INTERNAL_ERROR, some .API_ERROR)
  else if ¬ s.writeHandleOpen then
    (s, some .API_ERROR)
  else
    (s, none)

/-- Model of `writeToStream(finStream)` (lines 558-575): null the handle on fin, then
hand `writeBuf_` to the transport.  The transport accepts every write in
this model, so the WRITE_ERROR branch is unreachable here. -/
def writeToStream (s : StreamPublisherState) (finStream : Bool) :
    StreamPublisherState × Option MoQPublishErrorCode :=
  ({ s with writeHandleOpen := s.writeHandleOpen && !finStream }, none)

/-- Model of `writeCurrentObject(objectID, length, payload, finStream)`
(lines 546-556): set `header_.id` and `header_.length`, serialize the object
record, flush. -/
def writeCurrentObject (s : StreamPublisherState) (objectID length : Nat)
    (finStream : Bool) : StreamPublisherState × Option MoQPublishErrorCode :=
  writeToStream
    { s with
      headerId := objectID,
      headerLength := some length,
      written := s.written ++ [(s.group, s.subgroup, objectID)] }
    finStream

/-- Model of `validateObjectPublishAndUpdateState(payload, finStream)`
(lines 577-607): only legal mid-object; a payload longer than the remaining
length resets the stream; reaching zero clears the in-progress state and
reports DONE; `finStream` with a positive remainder resets the stream. -/
def validateObjectPublishAndUpdateState (s : StreamPublisherState)
    (length : Nat) (finStream : Bool) :
    StreamPublisherState × Except MoQPublishErrorCode ObjectPublishStatus :=
  match s.currentLengthRemaining with
  | none => (s, .error .API_ERROR)
  | some remaining =>
    if remaining < length then
      (reset s .INTERNAL_ERROR, .error .API_ERROR)
    else if remaining - length = 0 then
      ({ s with currentLengthRemaining := none }, .ok .DONE)
    else if finStream then
      (reset { s with currentLengthRemaining := some (remaining - length) }
        .INTERNAL_ERROR, .error .API_ERROR)
    else
      ({ s with currentLengthRemaining := some (remaining - length) },
        .ok .IN_PROGRESS)

/-- Model of `object(objectID, payload, finStream)` (lines 611-621): single-shot
NORMAL object. -/
def object (s : StreamPublisherState) (objectID payloadLength : Nat)
    (finStream : Bool) : StreamPublisherState × Option MoQPublishErrorCode :=
  match validatePublish s objectID with
  | (s1, some e) => (s1, some e)
  | (s1, none) => writeCurrentObject s1 objectID payloadLength finStream

/-- Model of `publishStatus(objectID, status, finStream)` (lines 677-689): status-only
object (`length = 0`, no payload); the status value itself does not affect
the state tracked here. -/
def publishStatus (s : StreamPublisherState) (objectID : Nat)
    (finStream : Bool) : StreamPublisherState × Option MoQPublishErrorCode :=
  match validatePublish s objectID with
  | (s1, some e) => (s1, some e)
  | (s1, none) => writeCurrentObject s1 objectID 0 finStream

/-- Model of `beginObject(objectID, length, initialPayload)` (lines 628-645): start a
multi-chunk object; `currentLengthRemaining_ = length` and the initial
payload is accounted immediately with `finStream=false`. -/
def beginObject (s : StreamPublisherState)
    (objectID length initialPayloadLength : Nat) :
    StreamPublisherState × Option MoQPublishErrorCode :=
  match validatePublish s objectID with
  | (s1, some e) => (s1, some e)
  | (s1, none) =>
    match validateObjectPublishAndUpdateState
        { s1 with currentLengthRemaining := some length }
        initialPayloadLength false with
    | (s2, .error e) => (s2, some e)
    | (s2, .ok _) => writeCurrentObject s2 objectID length false

/-- Model of `objectPayload(payload, finStream)` (lines 647-661): append to the
in-progress object and flush. -/
def objectPayload (s : StreamPublisherState) (payloadLength : Nat)
    (finStream : Bool) :
    StreamPublisherState × Except MoQPublishErrorCode ObjectPublishStatus :=
  match validateObjectPublishAndUpdateState s payloadLength finStream with
  | (s1, .error e) => (s1, .error e)
  | (s1, .ok status) =>
    match writeToStream s1 finStream with
    | (s2, none) => (s2, .ok status)
    | (s2, some e) => (s2, .error e)

/-- Model of `endOfSubgroup()` (lines 691-703): clean finalization; fails when a
partial object is outstanding. -/
def endOfSubgroup (s : StreamPublisherState) :
    StreamPublisherState × Option MoQPublishErrorCode :=
  if s.currentLengthRemaining.isSome then
    (reset s .INTERNAL_ERROR, some .API_ERROR)
  else
    writeToStream s true

/-- Model of `setGroupAndSubgroup(groupID, subgroupID)` (lines 194-205), used by every
fetch-mode operation: a lower group is refused; a higher group resets the
`header_.id` sentinel.  The check compares raw group numbers whatever the
agreed group order (the source marks reversing it under NewestFirst as a
TODO). -/
def setGroupAndSubgroup (s : StreamPublisherState) (groupID subgroupID : Nat) :
    StreamPublisherState × Bool :=
  if groupID < s.group then
    (s, false)
  else
    let s1 := if s.group < groupID then { s with headerId := uint64Max } else s
    ({ s1 with group := groupID, subgroup := subgroupID }, true)

/-- FetchConsumer `object(groupID, subgroupID, objectID, payload, finFetch)`
(lines 107-119): position the writer on the (group, subgroup), then publish
as a NORMAL object; the Group-moved-back rejection is an API_ERROR. -/
def fetchObject (s : StreamPublisherState)
    (groupID subgroupID objectID payloadLength : Nat) (finFetch : Bool) :
    StreamPublisherState × Option MoQPublishErrorCode :=
  match setGroupAndSubgroup s groupID subgroupID with
  | (s1, false) => (s1, some .API_ERROR)
  | (s1, true) => object s1 objectID payloadLength finFetch

end StreamPublisherImpl

/-- Fetch constructor (lines 473-499): `header_` starts at group 0,
subgroup 0, id = sentinel; the handle is live and no object is in
progress. -/
def initFetchStream : StreamPublisherState :=
  { writeHandleOpen := true
    resetCode := none
    group := 0
    subgroup := 0
    headerId := uint64Max
    headerLength := none
    currentLengthRemaining := none
    written := [] }

/-- Subgroup constructor (lines 501-513): delegates to the fetch constructor
then positions the writer on the (group, subgroup) of the subgroup. -/
def initSubgroupStream (groupID subgroupID : Nat) : StreamPublisherState :=
  (StreamPublisherImpl.setGroupAndSubgroup initFetchStream groupID
    subgroupID).1

/-! ## MoQSession control plane (MoQSession.cpp lines 964-2336)

The session state tracked here is the part the claims touch: the publisher
map (`pubTracks_`, kept as the list of its subscribe IDs; the per-entry
publisher objects are modelled separately by `StreamPublisherState`), the
subscription-ID credit counters, the application message queue
(`controlMessages_`) and the outbound control buffer (`controlWriteBuf_`,
with writers modelled as succeeding).  `sessionClosed` is `none` while the
transport is attached (`wt_ != nullptr`) and records the close code
otherwise. -/

/-- Model of `SessionCloseErrorCode`. -/
inductive SessionCloseErrorCode where
  | NO_ERROR
  | INTERNAL_ERROR
  | PROTOCOL_VIOLATION
  | TOO_MANY_SUBSCRIBES
deriving DecidableEq, Repr

/-- Control messages enqueued to the application via `controlMessages_`;
only the kinds the claims mention are modelled, keyed by subscribe ID. -/
inductive AppMessage where
  | subscribeRequest (id : Nat)
  | fetchRequest (id : Nat)
deriving DecidableEq, Repr

/-- Control messages appended to `controlWriteBuf_` for the peer. -/
inductive ControlWrite where
  | subscribeRequest (id : Nat)
  | fetchRequest (id : Nat)
  | subscribeError (id code : Nat)
  | fetchError (id code : Nat)
  | subscribeDone (id : Nat)
  | maxSubscribeId (value : Nat)
deriving DecidableEq, Repr

/-- Model of `SetupParameter { key, asUint64 }`. -/
structure SetupParameter where
  key : Nat
  asUint64 : Nat
deriving DecidableEq, Repr

/-- Model of `SetupKey::MAX_SUBSCRIBE_ID` as a varint key.  Its numeric value only
matters for equality tests against parameter keys. -/
def kMaxSubscribeIdKey : Nat := 2

/-- Model of `kVersionDraftCurrent`.  Its numeric value only matters for membership
tests against the supported-version list of the client. -/
def kVersionDraftCurrent : Nat := 0xff000008

/-- The session fields the claims are about. -/
structure SessionState where
  pubTracks : List Nat
  nextSubscribeID : Nat
  maxSubscribeID : Nat
  peerMaxSubscribeID : Nat
  maxConcurrentSubscribes : Nat
  closedSubscribes : Nat
  appQueue : List AppMessage
  controlWriteBuf : List ControlWrite
  sessionClosed : Option SessionCloseErrorCode
deriving DecidableEq, Repr

namespace MoQSession

/-- Model of `close(error)` (lines 964-979): only acts while the transport is
attached; `cleanup()` clears the publisher map (resetting each publisher),
then the transport is closed with `error`. -/
def close (s : SessionState) (error : SessionCloseErrorCode) : SessionState :=
  match s.sessionClosed with
  | some _ => s
  | none => { s with sessionClosed := some error, pubTracks := [] }

/-- Model of `closeSessionIfSubscribeIdInvalid(subscribeID)` (lines 2318-2325):
a received ID must satisfy `subscribeID < maxSubscribeID_`; otherwise close
the session with TOO_MANY_SUBSCRIBES. -/
def closeSessionIfSubscribeIdInvalid (s : SessionState) (subscribeID : Nat) :
    SessionState × Bool :=
  if s.maxSubscribeID ≤ subscribeID then
    (close s .TOO_MANY_SUBSCRIBES, true)
  else
    (s, false)

/-- Model of `getMaxSubscribeIdIfPresent(params)` (lines 2328-2336): the first
MAX_SUBSCRIBE_ID parameter value, or 0 when none is present. -/
def getMaxSubscribeIdIfPresent (params : List SetupParameter) : Nat :=
  match params.find? (fun p => p.key == kMaxSubscribeIdKey) with
  | some p => p.asUint64
  | none => 0

/-- Model of `sendMaxSubscribeID(signalWriteLoop)` (lines 2087-2099) followed by the
caller state: write MAX_SUBSCRIBE_ID carrying the current
`maxSubscribeID_`. -/
def sendMaxSubscribeID (s : SessionState) : SessionState :=
  { s with
    controlWriteBuf := s.controlWriteBuf ++ [.maxSubscribeId s.maxSubscribeID] }

/-- Model of `retireSubscribeId(signalWriteLoop)` (lines 2077-2085): increment
`closedSubscribes_`; once it reaches half of `maxConcurrentSubscribes_`,
fold it into `maxSubscribeID_`, zero it, and send the new bound. -/
def retireSubscribeId (s : SessionState) : SessionState :=
  let closed := s.closedSubscribes + 1
  if s.maxConcurrentSubscribes / 2 ≤ closed then
    sendMaxSubscribeID
      { s with maxSubscribeID := s.maxSubscribeID + closed,
               closedSubscribes := 0 }
  else
    { s with closedSubscribes := closed }

/-- Model of `subscribeError(subErr)` (lines 2000-2015): only for a live publisher
entry; erase it, write SUBSCRIBE_ERROR, retire the ID. -/
def subscribeError (s : SessionState) (id code : Nat) : SessionState :=
  if id ∈ s.pubTracks then
    retireSubscribeId
      { s with
        pubTracks := s.pubTracks.erase id,
        controlWriteBuf := s.controlWriteBuf ++ [.subscribeError id code] }
  else
    s

/-- Model of `subscribeDone(subDone)` (lines 2057-2075): only for a live publisher
entry; erase it, write SUBSCRIBE_DONE, retire the ID. -/
def subscribeDone (s : SessionState) (id : Nat) : SessionState :=
  if id ∈ s.pubTracks then
    retireSubscribeId
      { s with
        pubTracks := s.pubTracks.erase id,
        controlWriteBuf := s.controlWriteBuf ++ [.subscribeDone id] }
  else
    s

/-- Model of `fetchComplete(subscribeID)` (lines 2107-2117), reached from the fetch
stream callback `onStreamComplete`: erase the publisher entry and retire the ID. -/
def fetchComplete (s : SessionState) (id : Nat) : SessionState :=
  if id ∈ s.pubTracks then
    retireSubscribeId { s with pubTracks := s.pubTracks.erase id }
  else
    s

/-- Model of `fetchError(fetchErr)` (lines 2212-2226): erase the publisher entry when
present (absence is tolerated) and write FETCH_ERROR.  Unlike
`subscribeError`, it never calls `retireSubscribeId`. -/
def fetchError (s : SessionState) (id code : Nat) : SessionState :=
  { s with
    pubTracks := s.pubTracks.erase id,
    controlWriteBuf := s.controlWriteBuf ++ [.fetchError id code] }

/-- Model of `onSubscribe(subscribeRequest)` (lines 1505-1536): validate the ID
against `maxSubscribeID_`, reject duplicates via `subscribeError` code 400,
otherwise create the publisher entry and enqueue for the application. -/
def onSubscribe (s : SessionState) (id : Nat) : SessionState :=
  match closeSessionIfSubscribeIdInvalid s id with
  | (s1, true) => s1
  | (s1, false) =>
    if id ∈ s1.pubTracks then
      subscribeError s1 id 400
    else
      { s1 with
        pubTracks := id :: s1.pubTracks,
        appQueue := s1.appQueue ++ [.subscribeRequest id] }

/-- Model of the `AbsoluteLocation` comparison used by the range check of `onFetch`:
(group, object) lexicographic. -/
def locLt (a b : Nat × Nat) : Bool :=
  a.1 < b.1 || (a.1 == b.1 && a.2 < b.2)

/-- Model of `FetchErrorCode::INVALID_RANGE` as a wire code; its numeric value only
matters for being recorded in the FETCH_ERROR write. -/
def kInvalidRangeCode : Nat := 5

/-- Model of `onFetch(fetch)` (lines 1649-1673): validate the ID against
`maxSubscribeID_`, reject `end < start` with INVALID_RANGE, reject
duplicates via `fetchError` code 400, otherwise create the publisher entry
and enqueue for the application. -/
def onFetch (s : SessionState) (id : Nat) (startLoc endLoc : Nat × Nat) :
    SessionState :=
  match closeSessionIfSubscribeIdInvalid s id with
  | (s1, true) => s1
  | (s1, false) =>
    if locLt endLoc startLoc then
      fetchError s1 id kInvalidRangeCode
    else if id ∈ s1.pubTracks then
      fetchError s1 id 400
    else
      { s1 with
        pubTracks := id :: s1.pubTracks,
        appQueue := s1.appQueue ++ [.fetchRequest id] }

/-- Outbound `subscribe(sub, callback)` (lines 1932-1970): when
`nextSubscribeID_ ≥ peerMaxSubscribeID_` only a warning is logged; the ID is
allocated from `nextSubscribeID_` unconditionally and the SUBSCRIBE is
written.  (The receive-state maps the coroutine then populates are not part
of any claim here.)  Returns the allocated ID. -/
def subscribe (s : SessionState) : SessionState × Nat :=
  let subID := s.nextSubscribeID
  ({ s with
     nextSubscribeID := subID + 1,
     controlWriteBuf := s.controlWriteBuf ++ [.subscribeRequest subID] },
   subID)

/-- Outbound `fetch(fetch, fetchCallback)` (lines 2143-2174): same
unconditional allocation as `subscribe`. -/
def fetch (s : SessionState) : SessionState × Nat :=
  let subID := s.nextSubscribeID
  ({ s with
     nextSubscribeID := subID + 1,
     controlWriteBuf := s.controlWriteBuf ++ [.fetchRequest subID] },
   subID)

/-- Client-side `setup(clientSetup)` (lines 1017-1050): write CLIENT_SETUP
and install the locally advertised MAX_SUBSCRIBE_ID of the client as both
`maxSubscribeID_` and `maxConcurrentSubscribes_`. -/
def setup (s : SessionState) (clientParams : List SetupParameter) :
    SessionState :=
  let maxSubscribeId := getMaxSubscribeIdIfPresent clientParams
  { s with
    maxSubscribeID := maxSubscribeId,
    maxConcurrentSubscribes := maxSubscribeId }

/-- Server-side `onClientSetup(clientSetup)` (lines 1066-1099): close with
PROTOCOL_VIOLATION unless the client supports the current version; store the
advertised bound of the client as `peerMaxSubscribeID_`; obtain the server setup
from the application callback (modelled as returning `serverParams`), write
it, and install the locally advertised MAX_SUBSCRIBE_ID of the server as both
`maxSubscribeID_` and `maxConcurrentSubscribes_`. -/
def onClientSetup (s : SessionState) (supportedVersions : List Nat)
    (clientParams serverParams : List SetupParameter) : SessionState :=
  if kVersionDraftCurrent ∉ supportedVersions then
    close s .PROTOCOL_VIOLATION
  else
    let s1 := { s with
                peerMaxSubscribeID := getMaxSubscribeIdIfPresent clientParams }
    let maxSubscribeId := getMaxSubscribeIdIfPresent serverParams
    { s1 with
      maxSubscribeID := maxSubscribeId,
      maxConcurrentSubscribes := maxSubscribeId }

end MoQSession

end Moxygen

namespace Moxygen

/-- C1: the priority encoder drops the top 10 of the 21 group bits.  At
groupID = 2048 = 2^11 (OldestFirst, all other inputs 0) the claimed layout
gives `2048 <<< 21 = 2^32`, but the code computes `groupBits << 21` in
32-bit arithmetic and returns 0.  The two definitions agree on the example
given in the spec (groupID 7, pubPri 128) because 7 < 2^11. -/
theorem getStreamPriority_truncates_group_bits :
    getStreamPriority 2048 0 0 0 .OldestFirst = 0 ∧
    claimedStreamPriority 2048 0 0 0 .OldestFirst = 2 ^ 32 ∧
    getStreamPriority 2048 0 0 0 .OldestFirst ≠
      claimedStreamPriority 2048 0 0 0 .OldestFirst ∧
    getStreamPriority 7 0 3 128 .OldestFirst =
      (3 <<< 50) ||| (128 <<< 42) ||| (7 <<< 21) := by
  refine ⟨by decide, by decide, by decide, by decide⟩

/-- C2: an inbound SUBSCRIBE or FETCH whose subscribeID is at or above
`maxSubscribeID_` closes the session with TOO_MANY_SUBSCRIBES, creates no
publisher state, and enqueues nothing to the application; consequently a
subscribeID that does get enqueued satisfies `id < maxSubscribeID_` at
receipt. -/
theorem inbound_id_at_or_above_max_closes_session
    (s : SessionState) (id : Nat) (startLoc endLoc : Nat × Nat)
    (hopen : s.sessionClosed = none) (hid : s.maxSubscribeID ≤ id) :
    MoQSession.onSubscribe s id =
      { s with sessionClosed := some .TOO_MANY_SUBSCRIBES, pubTracks := [] } ∧
    MoQSession.onFetch s id startLoc endLoc =
      { s with sessionClosed := some .TOO_MANY_SUBSCRIBES, pubTracks := [] } ∧
    (∀ (t : SessionState) (j : Nat),
      (MoQSession.onSubscribe t j).appQueue ≠ t.appQueue →
        j < t.maxSubscribeID) := by
  refine ⟨?_, ?_, ?_⟩
  · simp [MoQSession.onSubscribe, MoQSession.closeSessionIfSubscribeIdInvalid,
      MoQSession.close, hopen, hid]
  · simp [MoQSession.onFetch, MoQSession.closeSessionIfSubscribeIdInvalid,
      MoQSession.close, hopen, hid]
  · intro t j hq
    by_contra hge
    apply hq
    simp only [MoQSession.onSubscribe,
      MoQSession.closeSessionIfSubscribeIdInvalid,
      if_pos (Nat.le_of_not_lt hge)]
    cases hclosed : t.sessionClosed <;>
      simp [MoQSession.close, hclosed]

/-- Scenario S5 of the spec: `maxSubscribeID = 4`, peer sends
`SUBSCRIBE{id = 4}`. -/
def sessionS5 : SessionState :=
  { pubTracks := []
    nextSubscribeID := 0
    maxSubscribeID := 4
    peerMaxSubscribeID := 0
    maxConcurrentSubscribes := 4
    closedSubscribes := 0
    appQueue := []
    controlWriteBuf := []
    sessionClosed := none }

/-- C2 witness: scenario S5 closes the session with TOO_MANY_SUBSCRIBES and
enqueues nothing. -/
theorem inbound_id_at_or_above_max_closes_session_witness :
    MoQSession.onSubscribe sessionS5 4 =
      { sessionS5 with
        sessionClosed := some .TOO_MANY_SUBSCRIBES, pubTracks := [] } :=
  (inbound_id_at_or_above_max_closes_session sessionS5 4 (0, 0) (0, 0) rfl
    (by decide)).1

/-- C3: a retirement that brings `closedSubscribes_` to at least
`maxConcurrentSubscribes_ / 2` folds the counter into `maxSubscribeID_`,
zeroes it, and writes MAX_SUBSCRIBE_ID carrying the new bound (previous
bound plus the counter value reached). -/
theorem retireSubscribeId_at_threshold (s : SessionState)
    (h : s.maxConcurrentSubscribes / 2 ≤ s.closedSubscribes + 1) :
    MoQSession.retireSubscribeId s =
      { s with
        maxSubscribeID := s.maxSubscribeID + (s.closedSubscribes + 1),
        closedSubscribes := 0,
        controlWriteBuf := s.controlWriteBuf ++
          [.maxSubscribeId
            (s.maxSubscribeID + (s.closedSubscribes + 1))] } := by
  simp [MoQSession.retireSubscribeId, MoQSession.sendMaxSubscribeID, h]

/-- Scenario S4 of the spec at its start: `maxConcurrentSubscribes = 10`, initial
`maxSubscribeID = 10`, no retirements yet. -/
def sessionS4 : SessionState :=
  { pubTracks := []
    nextSubscribeID := 0
    maxSubscribeID := 10
    peerMaxSubscribeID := 0
    maxConcurrentSubscribes := 10
    closedSubscribes := 0
    appQueue := []
    controlWriteBuf := []
    sessionClosed := none }

/-- Scenario S4 after four of the five terminations. -/
def sessionS4Pre : SessionState := { sessionS4 with closedSubscribes := 4 }

/-- C3 witness: scenario S4 — four retirements leave the counter at 4 with
no MAX_SUBSCRIBE_ID written; the fifth crosses the threshold (5 ≥ 10/2),
issues MAX_SUBSCRIBE_ID = 15 and zeroes the counter. -/
theorem retireSubscribeId_at_threshold_witness :
    MoQSession.retireSubscribeId (MoQSession.retireSubscribeId
        (MoQSession.retireSubscribeId (MoQSession.retireSubscribeId
          sessionS4))) = sessionS4Pre ∧
    10 / 2 ≤ 4 + 1 ∧
    MoQSession.retireSubscribeId sessionS4Pre =
      { sessionS4Pre with
        maxSubscribeID := sessionS4Pre.maxSubscribeID +
          (sessionS4Pre.closedSubscribes + 1),
        closedSubscribes := 0,
        controlWriteBuf := sessionS4Pre.controlWriteBuf ++
          [.maxSubscribeId (sessionS4Pre.maxSubscribeID +
            (sessionS4Pre.closedSubscribes + 1))] } :=
  ⟨by decide, by decide,
    retireSubscribeId_at_threshold sessionS4Pre (by decide)⟩

/-- Session state with live publisher entries 0 and 1 and no retirements,
used to exhibit the `fetchError` asymmetry. -/
def sessionC7 : SessionState :=
  { pubTracks := [0, 1]
    nextSubscribeID := 0
    maxSubscribeID := 10
    peerMaxSubscribeID := 0
    maxConcurrentSubscribes := 10
    closedSubscribes := 0
    appQueue := []
    controlWriteBuf := []
    sessionClosed := none }

/-- C7 counterexample: replying to an inbound FETCH with a local FETCH_ERROR
(`fetchError`) erases the publisher entry and writes the error, but leaves
`closedSubscribes_` unchanged — it does not increment it as the claim
states. -/
theorem fetchError_does_not_increment_closedSubscribes :
    0 ∈ sessionC7.pubTracks ∧
    (MoQSession.fetchError sessionC7 0 400).controlWriteBuf =
      [.fetchError 0 400] ∧
    (MoQSession.fetchError sessionC7 0 400).closedSubscribes =
      sessionC7.closedSubscribes ∧
    (MoQSession.fetchError sessionC7 0 400).closedSubscribes ≠
      sessionC7.closedSubscribes + 1 := by
  refine ⟨by decide, by decide, by decide, by decide⟩

/-- C7 amended: local SUBSCRIBE_DONE, local SUBSCRIBE_ERROR and fetch stream
termination each retire the subscribe ID (incrementing `closedSubscribes_`,
stated below the threshold so the counter is visible), but replying with a
local FETCH_ERROR does not. -/
theorem local_completions_retire_except_fetchError
    (s : SessionState) (id code : Nat)
    (hmem : id ∈ s.pubTracks)
    (hthr : s.closedSubscribes + 1 < s.maxConcurrentSubscribes / 2) :
    (MoQSession.subscribeDone s id).closedSubscribes =
      s.closedSubscribes + 1 ∧
    (MoQSession.subscribeError s id code).closedSubscribes =
      s.closedSubscribes + 1 ∧
    (MoQSession.fetchComplete s id).closedSubscribes =
      s.closedSubscribes + 1 ∧
    (MoQSession.fetchError s id code).closedSubscribes =
      s.closedSubscribes := by
  have hnot : ¬ s.maxConcurrentSubscribes / 2 ≤ s.closedSubscribes + 1 :=
    Nat.not_le.mpr hthr
  refine ⟨?_, ?_, ?_, ?_⟩ <;>
    simp [MoQSession.subscribeDone, MoQSession.subscribeError,
      MoQSession.fetchComplete, MoQSession.fetchError,
      MoQSession.retireSubscribeId, hmem, hnot]

/-- C7 amended witness: with entries {0, 1} live and the counter at 0
(threshold 5), `subscribeDone` moves the counter to 1 while `fetchError`
leaves it at 0. -/
theorem local_completions_retire_except_fetchError_witness :
    (MoQSession.subscribeDone sessionC7 1).closedSubscribes =
      sessionC7.closedSubscribes + 1 ∧
    (MoQSession.subscribeError sessionC7 1 400).closedSubscribes =
      sessionC7.closedSubscribes + 1 ∧
    (MoQSession.fetchComplete sessionC7 1).closedSubscribes =
      sessionC7.closedSubscribes + 1 ∧
    (MoQSession.fetchError sessionC7 1 400).closedSubscribes =
      sessionC7.closedSubscribes :=
  local_completions_retire_except_fetchError sessionC7 1 400 (by decide)
    (by decide)

/-- Session state advertising `peerMaxSubscribeID = 0`, on which any
outbound allocation violates the claimed bound. -/
def sessionC9 : SessionState :=
  { pubTracks := []
    nextSubscribeID := 0
    maxSubscribeID := 0
    peerMaxSubscribeID := 0
    maxConcurrentSubscribes := 0
    closedSubscribes := 0
    appQueue := []
    controlWriteBuf := []
    sessionClosed := none }

/-- C9 counterexample: with `peerMaxSubscribeID = 0`, `subscribe` (and
`fetch`) still allocate ID 0 and write the request, so the allocated ID does
not satisfy `id < peerMaxSubscribeID`. -/
theorem outbound_id_not_bounded_by_peer_max :
    (MoQSession.subscribe sessionC9).2 = 0 ∧
    ¬ ((MoQSession.subscribe sessionC9).2 < sessionC9.peerMaxSubscribeID) ∧
    (MoQSession.subscribe sessionC9).1.controlWriteBuf =
      [.subscribeRequest 0] ∧
    ¬ ((MoQSession.fetch sessionC9).2 < sessionC9.peerMaxSubscribeID) ∧
    (MoQSession.fetch sessionC9).1.controlWriteBuf = [.fetchRequest 0] := by
  refine ⟨by decide, by decide, by decide, by decide, by decide⟩

/-- C9 amended: outbound subscribe and fetch allocate
`id = nextSubscribeID_` unconditionally, increment the allocator, and write
the request; `peerMaxSubscribeID_` is consulted only for a warning, so the
bound `id < peerMaxSubscribeID` holds exactly when the allocator is below
the advertised value of the peer at call time. -/
theorem outbound_allocation_is_unconditional (s : SessionState) :
    (MoQSession.subscribe s).2 = s.nextSubscribeID ∧
    (MoQSession.subscribe s).1.nextSubscribeID = s.nextSubscribeID + 1 ∧
    (MoQSession.subscribe s).1.controlWriteBuf =
      s.controlWriteBuf ++ [.subscribeRequest s.nextSubscribeID] ∧
    (MoQSession.fetch s).2 = s.nextSubscribeID ∧
    (MoQSession.fetch s).1.nextSubscribeID = s.nextSubscribeID + 1 ∧
    (MoQSession.fetch s).1.controlWriteBuf =
      s.controlWriteBuf ++ [.fetchRequest s.nextSubscribeID] := by
  refine ⟨rfl, rfl, rfl, rfl, rfl, rfl⟩

/-- Session state with a live publisher entry 1, used to exhibit duplicate
handling. -/
def sessionC8 : SessionState :=
  { pubTracks := [1]
    nextSubscribeID := 0
    maxSubscribeID := 10
    peerMaxSubscribeID := 0
    maxConcurrentSubscribes := 10
    closedSubscribes := 0
    appQueue := []
    controlWriteBuf := []
    sessionClosed := none }

/-- C8 counterexample: an inbound SUBSCRIBE (or FETCH) duplicating a live
publisher entry does not close the session — `sessionClosed` stays `none`,
so in particular it is closed neither with PROTOCOL_VIOLATION nor with
TOO_MANY_SUBSCRIBES; the duplicate is answered with an error message
instead. -/
theorem duplicate_inbound_id_does_not_close_session :
    1 ∈ sessionC8.pubTracks ∧
    (MoQSession.onSubscribe sessionC8 1).sessionClosed = none ∧
    (MoQSession.onSubscribe sessionC8 1).controlWriteBuf =
      [.subscribeError 1 400] ∧
    (MoQSession.onFetch sessionC8 1 (0, 0) (0, 0)).sessionClosed = none ∧
    (MoQSession.onFetch sessionC8 1 (0, 0) (0, 0)).controlWriteBuf =
      [.fetchError 1 400] := by
  refine ⟨by decide, by decide, by decide, by decide, by decide⟩

/-- C8 amended: an inbound SUBSCRIBE (FETCH) whose subscribeID duplicates a
live publisher entry is rejected without closing the session: the session
replies SUBSCRIBE_ERROR (FETCH_ERROR) with code 400, enqueues nothing to the
application, and — both replies going through the erase-by-ID paths — the
pre-existing publisher entry is erased (the subscribe path also retires the
ID; stated below the retirement threshold so no MAX_SUBSCRIBE_ID is
issued). -/
theorem duplicate_inbound_id_rejected_without_close
    (s : SessionState) (id : Nat) (startLoc endLoc : Nat × Nat)
    (hmem : id ∈ s.pubTracks) (hlt : id < s.maxSubscribeID)
    (hthr : s.closedSubscribes + 1 < s.maxConcurrentSubscribes / 2)
    (hrange : MoQSession.locLt endLoc startLoc = false) :
    MoQSession.onSubscribe s id =
      { s with
        pubTracks := s.pubTracks.erase id,
        controlWriteBuf := s.controlWriteBuf ++ [.subscribeError id 400],
        closedSubscribes := s.closedSubscribes + 1 } ∧
    MoQSession.onFetch s id startLoc endLoc =
      { s with
        pubTracks := s.pubTracks.erase id,
        controlWriteBuf := s.controlWriteBuf ++ [.fetchError id 400] } := by
  have hnotle : ¬ s.maxSubscribeID ≤ id := Nat.not_le.mpr hlt
  have hnot : ¬ s.maxConcurrentSubscribes / 2 ≤ s.closedSubscribes + 1 :=
    Nat.not_le.mpr hthr
  constructor
  · simp [MoQSession.onSubscribe, MoQSession.closeSessionIfSubscribeIdInvalid,
      MoQSession.subscribeError, MoQSession.retireSubscribeId, hnotle, hmem,
      hnot]
  · simp [MoQSession.onFetch, MoQSession.closeSessionIfSubscribeIdInvalid,
      MoQSession.fetchError, hnotle, hmem, hrange]

/-- C8 amended witness: duplicate ID 1 against `sessionC8`. -/
theorem duplicate_inbound_id_rejected_without_close_witness :
    MoQSession.onSubscribe sessionC8 1 =
      { sessionC8 with
        pubTracks := sessionC8.pubTracks.erase 1,
        controlWriteBuf :=
          sessionC8.controlWriteBuf ++ [.subscribeError 1 400],
        closedSubscribes := sessionC8.closedSubscribes + 1 } ∧
    MoQSession.onFetch sessionC8 1 (0, 0) (2, 0) =
      { sessionC8 with
        pubTracks := sessionC8.pubTracks.erase 1,
        controlWriteBuf := sessionC8.controlWriteBuf ++ [.fetchError 1 400] } :=
  duplicate_inbound_id_rejected_without_close sessionC8 1 (0, 0) (2, 0)
    (by decide) (by decide) (by decide) (by decide)

/-- C10: when the setup message a side itself sends carries no MAX_SUBSCRIBE_ID
parameter, `getMaxSubscribeIdIfPresent` yields 0, so `maxSubscribeID_`
becomes 0 on both the client path (`setup`) and the server path
(`onClientSetup`), and afterwards every inbound SUBSCRIBE or FETCH —
whatever its subscribeID — closes the session with TOO_MANY_SUBSCRIBES and
enqueues nothing. -/
theorem missing_max_subscribe_id_param_means_zero
    (s : SessionState) (supportedVersions : List Nat)
    (peerParams ownParams : List SetupParameter) (id : Nat)
    (startLoc endLoc : Nat × Nat)
    (hopen : s.sessionClosed = none)
    (hv : kVersionDraftCurrent ∈ supportedVersions)
    (hnone : ∀ p ∈ ownParams, p.key ≠ kMaxSubscribeIdKey) :
    MoQSession.getMaxSubscribeIdIfPresent ownParams = 0 ∧
    (MoQSession.setup s ownParams).maxSubscribeID = 0 ∧
    (MoQSession.onClientSetup s supportedVersions peerParams
      ownParams).maxSubscribeID = 0 ∧
    (MoQSession.onSubscribe (MoQSession.onClientSetup s supportedVersions
      peerParams ownParams) id).sessionClosed =
        some .TOO_MANY_SUBSCRIBES ∧
    (MoQSession.onSubscribe (MoQSession.onClientSetup s supportedVersions
      peerParams ownParams) id).appQueue = s.appQueue ∧
    (MoQSession.onFetch (MoQSession.onClientSetup s supportedVersions
      peerParams ownParams) id startLoc endLoc).sessionClosed =
        some .TOO_MANY_SUBSCRIBES ∧
    (MoQSession.onFetch (MoQSession.onClientSetup s supportedVersions
      peerParams ownParams) id startLoc endLoc).appQueue = s.appQueue := by
  have hfind : ownParams.find? (fun p => p.key == kMaxSubscribeIdKey)
      = none := by
    rw [List.find?_eq_none]
    intro p hp
    simpa using hnone p hp
  have hzero : MoQSession.getMaxSubscribeIdIfPresent ownParams = 0 := by
    simp [MoQSession.getMaxSubscribeIdIfPresent, hfind]
  have hsetup : MoQSession.onClientSetup s supportedVersions peerParams
      ownParams =
      { s with
        peerMaxSubscribeID :=
          MoQSession.getMaxSubscribeIdIfPresent peerParams,
        maxSubscribeID := 0,
        maxConcurrentSubscribes := 0 } := by
    simp [MoQSession.onClientSetup, hv, hzero]
  refine ⟨hzero, by simp [MoQSession.setup, hzero], by rw [hsetup],
    ?_, ?_, ?_, ?_⟩ <;>
    rw [hsetup] <;>
    simp [MoQSession.onSubscribe, MoQSession.onFetch,
      MoQSession.closeSessionIfSubscribeIdInvalid, MoQSession.close, hopen]

/-- C10 witness: empty parameter lists, ID 7. -/
theorem missing_max_subscribe_id_param_means_zero_witness :
    MoQSession.getMaxSubscribeIdIfPresent [] = 0 ∧
    (MoQSession.setup sessionC9 []).maxSubscribeID = 0 ∧
    (MoQSession.onClientSetup sessionC9 [kVersionDraftCurrent] []
      []).maxSubscribeID = 0 ∧
    (MoQSession.onSubscribe (MoQSession.onClientSetup sessionC9
      [kVersionDraftCurrent] [] []) 7).sessionClosed =
        some .TOO_MANY_SUBSCRIBES ∧
    (MoQSession.onSubscribe (MoQSession.onClientSetup sessionC9
      [kVersionDraftCurrent] [] []) 7).appQueue = sessionC9.appQueue ∧
    (MoQSession.onFetch (MoQSession.onClientSetup sessionC9
      [kVersionDraftCurrent] [] []) 7 (0, 0) (1, 0)).sessionClosed =
        some .TOO_MANY_SUBSCRIBES ∧
    (MoQSession.onFetch (MoQSession.onClientSetup sessionC9
      [kVersionDraftCurrent] [] []) 7 (0, 0) (1, 0)).appQueue =
      sessionC9.appQueue :=
  missing_max_subscribe_id_param_means_zero sessionC9 [kVersionDraftCurrent]
    [] [] 7 (0, 0) (1, 0) rfl (by simp) (by simp)

/-- C4: on a live writer, `object` (and likewise the status-publishing path
`publishStatus`) with an object ID at or below the last written ID — when
that last ID is not the sentinel — or called while a partial object is in
progress, resets the stream with INTERNAL_ERROR and returns API_ERROR,
writing no object record. -/
theorem object_rejected_out_of_order_or_mid_object
    (s : StreamPublisherState) (objectID payloadLength : Nat)
    (finStream : Bool)
    (hOpen : s.writeHandleOpen = true)
    (h : s.currentLengthRemaining.isSome = true ∨
      (s.currentLengthRemaining = none ∧ s.headerId ≠ uint64Max ∧
        objectID ≤ s.headerId)) :
    StreamPublisherImpl.object s objectID payloadLength finStream =
      (StreamPublisherImpl.reset s .INTERNAL_ERROR, some .API_ERROR) ∧
    StreamPublisherImpl.publishStatus s objectID finStream =
      (StreamPublisherImpl.reset s .INTERNAL_ERROR, some .API_ERROR) ∧
    (StreamPublisherImpl.reset s .INTERNAL_ERROR).resetCode =
      some .INTERNAL_ERROR ∧
    (StreamPublisherImpl.reset s .INTERNAL_ERROR).writeHandleOpen = false ∧
    (StreamPublisherImpl.reset s .INTERNAL_ERROR).written = s.written := by
  have hval : StreamPublisherImpl.validatePublish s objectID =
      (StreamPublisherImpl.reset s .INTERNAL_ERROR, some .API_ERROR) := by
    rcases h with h1 | ⟨h1, h2, h3⟩
    · simp [StreamPublisherImpl.validatePublish, h1]
    · simp [StreamPublisherImpl.validatePublish, h1, h2, h3]
  refine ⟨?_, ?_, ?_, ?_, ?_⟩
  · simp [StreamPublisherImpl.object, hval]
  · simp [StreamPublisherImpl.publishStatus, hval]
  · simp [StreamPublisherImpl.reset, hOpen]
  · simp [StreamPublisherImpl.reset, hOpen]
  · simp [StreamPublisherImpl.reset, hOpen]

/-- Subgroup writer positioned at (group 7, subgroup 0) whose last written
object ID is 5, no object in progress. -/
def streamC4 : StreamPublisherState :=
  { initSubgroupStream 7 0 with headerId := 5 }

/-- C4 witness: writing object 5 again (equal to the last ID) on
`streamC4` resets the stream with INTERNAL_ERROR and returns API_ERROR. -/
theorem object_rejected_out_of_order_or_mid_object_witness :
    StreamPublisherImpl.object streamC4 5 3 false =
      (StreamPublisherImpl.reset streamC4 .INTERNAL_ERROR,
        some .API_ERROR) ∧
    (StreamPublisherImpl.reset streamC4 .INTERNAL_ERROR).resetCode =
      some .INTERNAL_ERROR :=
  ⟨(object_rejected_out_of_order_or_mid_object streamC4 5 3 false (by decide)
      (Or.inr ⟨by decide, by decide, by decide⟩)).1,
    (object_rejected_out_of_order_or_mid_object streamC4 5 3 false
      (by decide) (Or.inr ⟨by decide, by decide, by decide⟩)).2.2.1⟩

/-- C5: payload accounting of an in-progress object: a payload shorter than
the remaining length decrements it and reports IN_PROGRESS; a payload
reaching the remaining length exactly clears the in-progress state and
reports DONE; a payload exceeding it resets the stream with INTERNAL_ERROR
and returns API_ERROR; `finStream = true` while a positive remainder is left
likewise resets the stream and returns API_ERROR. -/
theorem objectPayload_length_accounting (s : StreamPublisherState)
    (remaining payloadLength : Nat)
    (h : s.currentLengthRemaining = some remaining)
    (hOpen : s.writeHandleOpen = true) :
    (payloadLength < remaining →
      StreamPublisherImpl.objectPayload s payloadLength false =
        ({ s with
            currentLengthRemaining := some (remaining - payloadLength) },
          .ok .IN_PROGRESS)) ∧
    (payloadLength = remaining →
      ∀ finStream : Bool,
        StreamPublisherImpl.objectPayload s payloadLength finStream =
          ({ s with
              currentLengthRemaining := none
              writeHandleOpen := !finStream },
            .ok .DONE)) ∧
    (remaining < payloadLength →
      ∀ finStream : Bool,
        StreamPublisherImpl.objectPayload s payloadLength finStream =
          (StreamPublisherImpl.reset s .INTERNAL_ERROR,
            .error .API_ERROR)) ∧
    (payloadLength < remaining →
      StreamPublisherImpl.objectPayload s payloadLength true =
        (StreamPublisherImpl.reset
          { s with
            currentLengthRemaining := some (remaining - payloadLength) }
          .INTERNAL_ERROR,
          .error .API_ERROR)) := by
  refine ⟨?_, ?_, ?_, ?_⟩
  · intro hlt
    have h1 : ¬ remaining < payloadLength := Nat.not_lt.mpr hlt.le
    have h2 : remaining - payloadLength ≠ 0 := Nat.sub_ne_zero_of_lt hlt
    simp [StreamPublisherImpl.objectPayload,
      StreamPublisherImpl.validateObjectPublishAndUpdateState,
      StreamPublisherImpl.writeToStream, h, h1, h2, hOpen]
  · rintro rfl finStream
    simp [StreamPublisherImpl.objectPayload,
      StreamPublisherImpl.validateObjectPublishAndUpdateState,
      StreamPublisherImpl.writeToStream, h, hOpen]
  · intro hlt finStream
    simp [StreamPublisherImpl.objectPayload,
      StreamPublisherImpl.validateObjectPublishAndUpdateState, h, hlt]
  · intro hlt
    have h1 : ¬ remaining < payloadLength := Nat.not_lt.mpr hlt.le
    have h2 : remaining - payloadLength ≠ 0 := Nat.sub_ne_zero_of_lt hlt
    simp [StreamPublisherImpl.objectPayload,
      StreamPublisherImpl.validateObjectPublishAndUpdateState, h, h1, h2]

/-- Subgroup writer mid-object: object 5 begun with 3 bytes still owed. -/
def streamC5 : StreamPublisherState :=
  { initSubgroupStream 7 0 with
    headerId := 5
    currentLengthRemaining := some 3 }

/-- C5 witness: a 3-byte payload against a 3-byte remainder completes the
object (DONE, in-progress state cleared), `finStream = true` being legal at
that point. -/
theorem objectPayload_length_accounting_witness :
    StreamPublisherImpl.objectPayload streamC5 3 true =
      ({ streamC5 with
          currentLengthRemaining := none
          writeHandleOpen := !true },
        .ok .DONE) :=
  (objectPayload_length_accounting streamC5 3 3 (by decide)
    (by decide)).2.1 rfl true

/-- Run a list of fetch-mode `object` calls
`(groupID, subgroupID, objectID, payloadLength, finFetch)` on a writer,
keeping the state whether each call succeeds or fails. -/
def runFetchObjects (s : StreamPublisherState)
    (ops : List (Nat × Nat × Nat × Nat × Bool)) : StreamPublisherState :=
  ops.foldl
    (fun st op =>
      (StreamPublisherImpl.fetchObject st op.1 op.2.1 op.2.2.1 op.2.2.2.1
        op.2.2.2.2).1)
    s

/-- Lemma: `validatePublish` never moves the group of the writer. -/
theorem validatePublish_group_eq (s : StreamPublisherState) (objectID : Nat) :
    (StreamPublisherImpl.validatePublish s objectID).1.group = s.group := by
  unfold StreamPublisherImpl.validatePublish StreamPublisherImpl.reset
  split_ifs <;> rfl

/-- Lemma: `object` never moves the group of the writer. -/
theorem object_group_eq (s : StreamPublisherState)
    (objectID payloadLength : Nat) (finStream : Bool) :
    (StreamPublisherImpl.object s objectID payloadLength finStream).1.group =
      s.group := by
  have hg := validatePublish_group_eq s objectID
  unfold StreamPublisherImpl.object
  rcases hv : StreamPublisherImpl.validatePublish s objectID with ⟨s1, e⟩
  rw [hv] at hg
  cases e <;>
    simp_all [StreamPublisherImpl.writeCurrentObject,
      StreamPublisherImpl.writeToStream]

/-- Lemma: one fetch-mode call never lowers the group of the writer. -/
theorem fetchObject_group_le (s : StreamPublisherState)
    (groupID subgroupID objectID payloadLength : Nat) (finFetch : Bool) :
    s.group ≤ (StreamPublisherImpl.fetchObject s groupID subgroupID objectID
      payloadLength finFetch).1.group := by
  unfold StreamPublisherImpl.fetchObject
    StreamPublisherImpl.setGroupAndSubgroup
  split_ifs with h1 h2
  · exact Nat.le_refl _
  · rw [object_group_eq]
    exact Nat.le_of_lt h2
  · rw [object_group_eq]
    exact Nat.le_of_not_lt h1

/-- Lemma: the group of the writer never decreases across any sequence of fetch-mode
calls. -/
theorem runFetchObjects_group_le (ops : List (Nat × Nat × Nat × Nat × Bool))
    (s : StreamPublisherState) :
    s.group ≤ (runFetchObjects s ops).group := by
  induction ops generalizing s with
  | nil => exact Nat.le_refl _
  | cons op rest ih =>
    have hstep := fetchObject_group_le s op.1 op.2.1 op.2.2.1 op.2.2.2.1
      op.2.2.2.2
    have htail := ih (StreamPublisherImpl.fetchObject s op.1 op.2.1 op.2.2.1
      op.2.2.2.1 op.2.2.2.2).1
    calc s.group
        ≤ (StreamPublisherImpl.fetchObject s op.1 op.2.1 op.2.2.1 op.2.2.2.1
            op.2.2.2.2).1.group := hstep
      _ ≤ (runFetchObjects (StreamPublisherImpl.fetchObject s op.1 op.2.1
            op.2.2.1 op.2.2.2.1 op.2.2.2.2).1 rest).group := htail
      _ = (runFetchObjects s (op :: rest)).group := rfl

/-- C6 amended: on a fetch-mode writer the group sequence is ascending
regardless of the agreed group order: a call whose groupID is below the
current group is rejected with API_ERROR leaving the state unchanged, a
group advance resets the last-object-ID sentinel (so the next object ID is
unconstrained and the call succeeds), and the group number never regresses
over any sequence of calls. -/
theorem fetch_group_never_regresses (s : StreamPublisherState)
    (groupID subgroupID objectID payloadLength : Nat) (finFetch : Bool)
    (ops : List (Nat × Nat × Nat × Nat × Bool))
    (hlow : groupID < s.group) :
    StreamPublisherImpl.fetchObject s groupID subgroupID objectID
      payloadLength finFetch = (s, some .API_ERROR) ∧
    (∀ g' sg' oid' len' : Nat,
      s.group < g' → s.currentLengthRemaining = none →
      s.writeHandleOpen = true →
      (StreamPublisherImpl.fetchObject s g' sg' oid' len' false).2 = none) ∧
    s.group ≤ (runFetchObjects s ops).group := by
  refine ⟨?_, ?_, runFetchObjects_group_le ops s⟩
  · have hset : StreamPublisherImpl.setGroupAndSubgroup s groupID
        subgroupID = (s, false) := by
      simp [StreamPublisherImpl.setGroupAndSubgroup, hlow]
    unfold StreamPublisherImpl.fetchObject
    rw [hset]
  · intro g' sg' oid' len' hgt hrem hOpen
    have hnot : ¬ g' < s.group := Nat.lt_asymm hgt
    have hset : StreamPublisherImpl.setGroupAndSubgroup s g' sg' =
        ({ s with headerId := uint64Max, group := g', subgroup := sg' },
          true) := by
      simp [StreamPublisherImpl.setGroupAndSubgroup, hnot, hgt]
    have hval : StreamPublisherImpl.validatePublish
        { s with headerId := uint64Max, group := g', subgroup := sg' }
        oid' =
        ({ s with headerId := uint64Max, group := g', subgroup := sg' },
          none) := by
      simp [StreamPublisherImpl.validatePublish, hrem, hOpen]
    unfold StreamPublisherImpl.fetchObject
    rw [hset]
    show (StreamPublisherImpl.object
      { s with headerId := uint64Max, group := g', subgroup := sg' }
      oid' len' false).2 = none
    unfold StreamPublisherImpl.object
    rw [hval]
    rfl

/-- Fetch-mode writer after a successful object in group 1. -/
def streamC6A : StreamPublisherState :=
  (StreamPublisherImpl.fetchObject initFetchStream 1 0 0 4 false).1

/-- Fetch-mode writer after a successful object in group 5. -/
def streamC6B : StreamPublisherState :=
  (StreamPublisherImpl.fetchObject initFetchStream 5 0 1 4 false).1

/-- C6 witness: on `streamC6A` (current group 1) a call for group 0 is
rejected with the state unchanged, a call advancing to group 2 with a
smaller object ID succeeds, and no call sequence lowers the group below
1. -/
theorem fetch_group_never_regresses_witness :
    StreamPublisherImpl.fetchObject streamC6A 0 0 9 4 false =
      (streamC6A, some .API_ERROR) ∧
    (StreamPublisherImpl.fetchObject streamC6A 2 0 0 4 false).2 = none ∧
    streamC6A.group ≤
      (runFetchObjects streamC6A [(0, 0, 9, 4, false)]).group :=
  ⟨(fetch_group_never_regresses streamC6A 0 0 9 4 false [(0, 0, 9, 4, false)]
      (by decide)).1,
    (fetch_group_never_regresses streamC6A 0 0 9 4 false
      [(0, 0, 9, 4, false)] (by decide)).2.1 2 0 0 4 (by decide) (by decide)
      (by decide),
    (fetch_group_never_regresses streamC6A 0 0 9 4 false
      [(0, 0, 9, 4, false)] (by decide)).2.2⟩

/-- Spec-side rendering of non-decreasing in the agreed group order for
the `(group, subgroup, objectID)` tuples of a fetch stream: under
OldestFirst successive positions carry ascending group numbers, under
NewestFirst descending group numbers; ties are broken by (subgroup,
objectID) ascending. -/
def fetchTupleLeInOrder (agreedOrder : GroupOrder)
    (t1 t2 : Nat × Nat × Nat) : Bool :=
  match agreedOrder with
  | .OldestFirst =>
    t1.1 < t2.1 || (t1.1 == t2.1 &&
      (t1.2.1 < t2.2.1 || (t1.2.1 == t2.2.1 && t1.2.2 ≤ t2.2.2)))
  | .NewestFirst =>
    t2.1 < t1.1 || (t1.1 == t2.1 &&
      (t1.2.1 < t2.2.1 || (t1.2.1 == t2.2.1 && t1.2.2 ≤ t2.2.2)))

/-- C6 counterexample: with NewestFirst as the agreed group order the writer
still enforces ascending raw group numbers (the source marks honouring the
order as a TODO): writing group 1 then group 2 succeeds although that
sequence is decreasing in the agreed NewestFirst order, while writing group
5 then group 3 — which does follow the agreed order — is rejected with
API_ERROR (Group moved back). -/
theorem fetch_order_ignores_agreed_group_order :
    (StreamPublisherImpl.fetchObject initFetchStream 1 0 0 4 false).2 =
      none ∧
    (StreamPublisherImpl.fetchObject streamC6A 2 0 5 4 false).2 = none ∧
    (StreamPublisherImpl.fetchObject streamC6A 2 0 5 4 false).1.written =
      [(1, 0, 0), (2, 0, 5)] ∧
    fetchTupleLeInOrder .NewestFirst (1, 0, 0) (2, 0, 5) = false ∧
    (StreamPublisherImpl.fetchObject streamC6B 3 0 2 4 false).2 =
      some .API_ERROR ∧
    fetchTupleLeInOrder .NewestFirst (5, 0, 1) (3, 0, 2) = true := by
  refine ⟨by decide, by decide, by decide, by decide, by decide, by decide⟩

end Moxygen
